import Mathlib

/-!
# Verification of the csalt authenticated directory-resolution subsystem

Shallow embedding of the Go sources of `csalt` (package `userapi` plus
`cmd/csalt/main.go`).  Pure data flow is translated directly; effectful
operations (HTTP calls, password reads, file reads/writes, lock
acquisitions, launching the external salt tool) are made explicit by
passing the outcome of each external interaction as a parameter and by
recording the side effects a function performs in its result structure.
Within one loop, the outcome of the i-th interaction is obtained from an
oracle function applied to `i`.
-/

set_option autoImplicit false
set_option linter.unusedVariables false

namespace Csalt

/-! ## Errors

Go errors are either plain errors (`errors.New` / `fmt.Errorf`) or the
`userapi` `*Error` struct, whose construction sites in `api.go` show the
fields `message`, `permanent` and `authentication`. -/

/-- A Go `error` value as used by the repository: either a plain error or
the `userapi.Error` struct with its `permanent`/`authentication` flags. -/
inductive GoError where
  | plain (message : String)
  | api (message : String) (permanent : Bool) (authentication : Bool)
deriving DecidableEq, Repr

/-- Modelled from the spec: the file `error.go` defining the `Error`
methods is not under `src/`.  Per spec §7/§9 the `AuthenticationError`
classification is a tagged kind "distinguishable from all other error
kinds", carried by the `authentication` field set at the construction
sites visible in `api.go`; a plain Go error is not of that kind.
`IsAuthenticationError` takes an `Option` because Go call sites may pass
a nil error. -/
def IsAuthenticationError : Option GoError → Bool
  | some (GoError.api _ _ auth) => auth
  | _ => false

/-- Modelled from the spec: `temporaryError` (in the missing `error.go`)
wraps an error as a non-permanent, non-authentication `Error`, per spec
§4.3's `ServerError`/`TransportError` classification. -/
def temporaryError (message : String) : GoError :=
  GoError.api message false false

/-! ## LockGuard and file reads (`config.go`)

A lock acquisition attempt (`TryLockContext` / `TryRLockContext`) yields a
boolean plus an optional error.  A file on disk is either missing, stat-s
with an error, readable with some contents, or fails to read.  The
contents are carried at the already-decoded level: `Except String α` is
the result `yaml.Unmarshal` would produce on the raw bytes. -/

/-- Outcome of one lock acquisition attempt (`flock` `TryLockContext` /
`TryRLockContext` with the 5 s timeout). -/
structure LockAttempt where
  locked : Bool
  err : Option String
deriving DecidableEq, Repr

/-- State of a file on disk, with contents abstracted to the result of
decoding its raw bytes. -/
inductive FileState (α : Type) where
  | missing
  | statError (message : String)
  | readable (contents : α)
  | readError (message : String)
deriving DecidableEq, Repr

/-- `afero.Exists`: false on a missing file, an error if the stat fails. -/
def existsCheck {α : Type} : FileState α → Except String Bool
  | FileState.missing => Except.ok false
  | FileState.statError m => Except.error m
  | FileState.readable _ => Except.ok true
  | FileState.readError _ => Except.ok true

/-- Result of `LockSafeConfig.Read`: Go returns `([]byte, error)`; a `nil`
slice is `none`. -/
structure ReadResult (α : Type) where
  buf : Option α
  err : Option String
deriving DecidableEq, Repr

/-- The `afero.ReadFile` step inside `LockSafeConfig.Read`: a missing file
(`os.IsNotExist`) yields `(nil, nil)`, a read failure yields the error,
otherwise the contents are returned. -/
def readFileStep {α : Type} : FileState α → ReadResult α
  | FileState.missing => ⟨none, none⟩
  | FileState.statError m => ⟨none, some m⟩
  | FileState.readable c => ⟨some c, none⟩
  | FileState.readError m => ⟨none, some m⟩

/-- `LockSafeConfig.Read` (config.go): if the lock is not already held,
acquire a shared lock; on acquisition failure return `(nil, err)`;
otherwise read the file, treating a missing file as `(nil, nil)`. -/
def lockSafeRead {α : Type} (alreadyLocked : Bool) (rl : LockAttempt)
    (file : FileState α) : ReadResult α :=
  if alreadyLocked then readFileStep file
  else if rl.locked == false || rl.err.isSome then ⟨none, rl.err⟩
  else readFileStep file

/-- The persisted token record (`TokenConfig` in config.go). -/
structure TokenConfig where
  userName : String
  token : String
deriving DecidableEq, Repr

/-- The zero value of `TokenConfig`. -/
def emptyTokenConfig : TokenConfig := ⟨"", ""⟩

/-- The identity record as decoded from `user.yaml` (the `server-url` and
`user-name` fields of `Config`). -/
structure IdRecord where
  serverURL : String
  userName : String
deriving DecidableEq, Repr

/-- The zero value of `IdRecord`. -/
def emptyIdRecord : IdRecord := ⟨"", ""⟩

/-- The `yaml.Unmarshal(bytes, &record)` step: `nil` bytes (missing file)
decode without error into the zero value; malformed bytes yield the
decode error; well-formed bytes yield the record. -/
def unmarshalStep {α : Type} (zero : α) : Option (Except String α) → α × Option String
  | none => (zero, none)
  | some (Except.error m) => (zero, some m)
  | some (Except.ok v) => (v, none)

/-- `readTokenConfig` (config.go): shared-lock read of the token file,
then `yaml.Unmarshal` into a fresh `TokenConfig`. -/
def readTokenConfig (rl : LockAttempt)
    (file : FileState (Except String TokenConfig)) : TokenConfig × Option String :=
  let r := lockSafeRead false rl file
  match r.err with
  | some e => (emptyTokenConfig, some e)
  | none => unmarshalStep emptyTokenConfig r.buf

/-- The in-memory `Config` struct (config.go): identity fields plus the
unexported cached token. -/
structure Config where
  serverURL : String
  userName : String
  token : String
deriving DecidableEq, Repr

/-- `Config.Validate` (config.go): both identity fields must be non-empty. -/
def Config.Validate (conf : Config) : Option String :=
  if conf.serverURL = "" then some "server-url missing"
  else if conf.userName = "" then some "user-name is missing"
  else none

/-- `(c *Config) read()` (config.go): existence check, shared-lock read of
the identity file, then `yaml.Unmarshal` into the zero-valued record. -/
def configRead (rl : LockAttempt)
    (file : FileState (Except String IdRecord)) : IdRecord × Option String :=
  match existsCheck file with
  | Except.error m => (emptyIdRecord, some m)
  | Except.ok false => (emptyIdRecord, some "User config is missing")
  | Except.ok true =>
    let r := lockSafeRead false rl file
    match r.err with
    | some e => (emptyIdRecord, some e)
    | none => unmarshalStep emptyIdRecord r.buf

/-- `NewConfig` (config.go): read the token record first (its error is
only formatted, never returned), check the identity file exists, read and
decode it, adopt the cached token only when the stored user name equals
the identity's user name, then propagate the read error or the
validation error. -/
def NewConfig (tokRl : LockAttempt) (tokFile : FileState (Except String TokenConfig))
    (idRl : LockAttempt) (idFile : FileState (Except String IdRecord)) :
    Config × Option String :=
  let tokenConfig := (readTokenConfig tokRl tokFile).1
  match existsCheck idFile with
  | Except.error m => (⟨"", "", ""⟩, some m)
  | Except.ok false => (⟨"", "", ""⟩, some "user config is missing")
  | Except.ok true =>
    let rec0 := configRead idRl idFile
    let token := if rec0.1.userName = tokenConfig.userName then tokenConfig.token else ""
    let conf : Config := ⟨rec0.1.serverURL, rec0.1.userName, token⟩
    match rec0.2 with
    | some e => (conf, some e)
    | none =>
      match conf.Validate with
      | some e => (conf, some e)
      | none => (conf, none)

/-- `getMissingConfig` (main.go): prompt for each still-empty identity
field; `inS`/`inU` are the strings the `fmt.Scanln` calls leave in the
fields (empty when the user enters nothing). -/
def getMissingConfig (conf : Config) (inS inU : String) : Config :=
  let c1 := if conf.serverURL = "" then { conf with serverURL := inS } else conf
  if c1.userName = "" then { c1 with userName := inU } else c1

/-- The identity-setup prefix of `runMain` (main.go): `NewConfig`, and on
any error interactively complete the missing fields (the follow-up
`config.Save()` only writes to disk and cannot change the in-memory
config, so it is not modelled). -/
def setupIdentity (tokRl : LockAttempt) (tokFile : FileState (Except String TokenConfig))
    (idRl : LockAttempt) (idFile : FileState (Except String IdRecord))
    (inS inU : String) : Config :=
  match NewConfig tokRl tokFile idRl idFile with
  | (conf, some _) => getMissingConfig conf inS inU
  | (conf, none) => conf

/-! ## HTTP response classification (`api.go`) -/

/-- An HTTP response as far as `handleHTTPResponse` inspects it: the
status code, the body text, and whether `ioutil.ReadAll` on the body
succeeds. -/
structure HTTPResponse where
  statusCode : Nat
  body : String
  bodyReadOk : Bool
deriving DecidableEq, Repr

/-- `isHTTPSuccess` (api.go). -/
def isHTTPSuccess (code : Nat) : Bool := decide (200 ≤ code ∧ code < 300)

/-- `isAuthorizationError` (api.go). -/
def isAuthorizationError (code : Nat) : Bool := code == 401

/-- `isHTTPClientError` (api.go). -/
def isHTTPClientError (code : Nat) : Bool := decide (400 ≤ code ∧ code < 500)

/-- The `fmt.Sprintf("API authentication failed (%d):", code)` message. -/
def authFailedMessage (code : Nat) : String :=
  "API authentication failed (" ++ toString code ++ "):"

/-- The `fmt.Sprintf("HTTP request failed (%d): %s", code, body)` message. -/
def requestFailedMessage (code : Nat) (body : String) : String :=
  "HTTP request failed (" ++ toString code ++ "): " ++ body

/-- The message used when the failure body itself cannot be read. -/
def bodyReadFailedMessage (code : Nat) : String :=
  "request failed (" ++ toString code ++ ") and body read failed"

/-- `handleHTTPResponse` (api.go): 401 yields the authentication-flagged
`Error`; any other non-2xx yields an `Error` carrying the body, permanent
exactly when the code is a 4xx (falling back to a temporary error when
the body cannot be read); 2xx yields no error. -/
def handleHTTPResponse (resp : HTTPResponse) : Option GoError :=
  if isAuthorizationError resp.statusCode then
    some (GoError.api (authFailedMessage resp.statusCode) false true)
  else if !(isHTTPSuccess resp.statusCode) then
    if resp.bodyReadOk then
      some (GoError.api (requestFailedMessage resp.statusCode resp.body)
        (isHTTPClientError resp.statusCode) false)
    else
      some (temporaryError (bodyReadFailedMessage resp.statusCode))
  else none

/-! ## DirectoryClient (`api.go`) -/

/-- A device record (`Device` in api.go). -/
structure Device where
  groupName : String
  deviceName : String
  saltId : Int
deriving DecidableEq, Repr

/-- The JSON body of `/api/v1/devices/query` (`DeviceReponse` in api.go). -/
structure DeviceResponse where
  messages : List String
  devices : List Device
  statusCode : Int
deriving DecidableEq, Repr

/-- The JSON body of the authentication and token-exchange endpoints
(`tokenResponse` in api.go). -/
structure TokenResponseBody where
  messages : List String
  token : String
  id : Int
deriving DecidableEq, Repr

/-- Outcome of one HTTP round trip: a transport failure, or a response
together with the result of JSON-decoding its body into the expected
type (`Except.error` models a malformed body). -/
inductive NetOutcome (α : Type) where
  | transportErr (message : String)
  | response (resp : HTTPResponse) (decoded : Except String α)

/-- The `CacophonyUserAPI` client state (api.go), without the HTTP client
handle. -/
structure CacophonyUserAPI where
  username : String
  serverURL : String
  token : String
  authenticated : Bool
deriving DecidableEq, Repr

/-- `New` (api.go): build the client from a `Config`; `authenticated`
starts false. -/
def New (conf : Config) : CacophonyUserAPI :=
  ⟨conf.userName, conf.serverURL, conf.token, false⟩

/-- Result of `Authenticate`, with the identity pair (serverURL,
username) of every HTTP request it issued. -/
structure AuthenticateResult where
  err : Option GoError
  api : CacophonyUserAPI
  netCallIds : List (String × String)
deriving DecidableEq, Repr

/-- `Authenticate` (api.go): an empty password is rejected before any
network call; otherwise the credentials are POSTed, the response is
classified by `handleHTTPResponse`, the body is decoded, and on success
the session token is replaced and `authenticated` is set. -/
def Authenticate (api : CacophonyUserAPI) (password : String)
    (net : NetOutcome TokenResponseBody) : AuthenticateResult :=
  if password = "" then ⟨some (GoError.plain "empty password"), api, []⟩
  else
    match net with
    | NetOutcome.transportErr m =>
      ⟨some (GoError.plain m), api, [(api.serverURL, api.username)]⟩
    | NetOutcome.response resp decoded =>
      match handleHTTPResponse resp with
      | some e => ⟨some e, api, [(api.serverURL, api.username)]⟩
      | none =>
        match decoded with
        | Except.error m =>
          ⟨some (GoError.plain ("decode: " ++ m)), api, [(api.serverURL, api.username)]⟩
        | Except.ok tr =>
          ⟨none, { api with token := tr.token, authenticated := true },
            [(api.serverURL, api.username)]⟩

/-- Result of `SaveTemporaryToken`: besides the returned error and the
(unchanged) client state, it records whether `saveTokenConfig` was
invoked and what that invocation returned. -/
structure SaveTokenResult where
  err : Option GoError
  api : CacophonyUserAPI
  persistCalled : Bool
  persistResult : Option GoError
  netCallIds : List (String × String)
deriving DecidableEq, Repr

/-- `SaveTemporaryToken` (api.go): an empty session token fails with the
`No Token found` error before any network call; otherwise the
token-exchange request is issued and classified, the body decoded, and
`saveTokenConfig` invoked — whose result is assigned to `err` and then
dropped by the `return nil` that follows (mirrored faithfully here: the
returned error is `none` regardless of `saveResult`). -/
def SaveTemporaryToken (api : CacophonyUserAPI) (ttl : String)
    (net : NetOutcome TokenResponseBody) (saveResult : Option GoError) : SaveTokenResult :=
  if api.token = "" then ⟨some (GoError.plain "No Token found"), api, false, none, []⟩
  else
    match net with
    | NetOutcome.transportErr m =>
      ⟨some (GoError.plain m), api, false, none, [(api.serverURL, api.username)]⟩
    | NetOutcome.response resp decoded =>
      match handleHTTPResponse resp with
      | some e => ⟨some e, api, false, none, [(api.serverURL, api.username)]⟩
      | none =>
        match decoded with
        | Except.error m =>
          ⟨some (GoError.plain ("decode: " ++ m)), api, false, none,
            [(api.serverURL, api.username)]⟩
        | Except.ok _ =>
          ⟨none, api, true, saveResult, [(api.serverURL, api.username)]⟩

/-- Result of `TranslateNames`. -/
structure TranslateResult where
  devices : Option (List Device)
  err : Option GoError
  api : CacophonyUserAPI
  netCallIds : List (String × String)
deriving DecidableEq, Repr

/-- `TranslateNames` (api.go): an empty session token fails with the
authentication-flagged `No Token Supplied` error before any network
call; otherwise the query is issued and classified, the body decoded,
and on success `authenticated` is set and the device list returned. -/
def TranslateNames (api : CacophonyUserAPI) (groups : List String)
    (devices : List Device) (net : NetOutcome DeviceResponse) : TranslateResult :=
  if api.token = "" then
    ⟨none, some (GoError.api "No Token Supplied" false true), api, []⟩
  else
    match net with
    | NetOutcome.transportErr m =>
      ⟨none, some (GoError.plain m), api, [(api.serverURL, api.username)]⟩
    | NetOutcome.response resp decoded =>
      match handleHTTPResponse resp with
      | some e => ⟨none, some e, api, [(api.serverURL, api.username)]⟩
      | none =>
        match decoded with
        | Except.error m =>
          ⟨none, some (GoError.plain ("decode: " ++ m)), api,
            [(api.serverURL, api.username)]⟩
        | Except.ok devResp =>
          ⟨some devResp.devices, none, { api with authenticated := true },
            [(api.serverURL, api.username)]⟩

/-- `LongTTL` (api.go). -/
def LongTTL : String := "long"

/-! ## AuthController (`main.go`) -/

/-- `maxPasswordAttempts` (main.go). -/
def maxPasswordAttempts : Nat := 3

/-- The `errors.New("Max Password Attempts")` terminal error. -/
def maxAttemptsError : GoError := GoError.plain "Max Password Attempts"

/-- Result of the password loop: the returned error, the client state,
and counts of password reads, retry prompts printed inside the loop, and
`Authenticate` invocations, plus the identity pairs of the HTTP requests
issued. -/
structure AuthLoopResult where
  err : Option GoError
  api : CacophonyUserAPI
  reads : Nat
  prompts : Nat
  authCalls : Nat
  netCallIds : List (String × String)
deriving DecidableEq, Repr

/-- The `for !api.Authenticated()` loop of `requestAuthentication`
(main.go).  `reads i` is the result of the i-th `gopass.GetPasswd`,
`anet i` the outcome of the i-th `Authenticate`'s HTTP call.  The Go
loop increments `attempts` on each authentication-classified failure and
returns `Max Password Attempts` when `attempts` reaches
`maxPasswordAttempts`; the budget parameter here is
`maxPasswordAttempts - attempts`, so the budget-0 and budget-1 cases both
fail terminally and the loop re-enters only with a positive budget,
exactly as in the source (which always starts at `attempts = 0`). -/
def authLoop (reads : Nat → Except String String)
    (anet : Nat → NetOutcome TokenResponseBody)
    (api : CacophonyUserAPI) (idx : Nat) : Nat → AuthLoopResult
  | 0 => ⟨some maxAttemptsError, api, 0, 0, 0, []⟩
  | remaining + 1 =>
    if api.authenticated then ⟨none, api, 0, 0, 0, []⟩
    else
      match reads idx with
      | Except.error m => ⟨some (GoError.plain m), api, 1, 0, 0, []⟩
      | Except.ok pw =>
        let a := Authenticate api pw (anet idx)
        match a.err with
        | none => ⟨none, a.api, 1, 0, 1, a.netCallIds⟩
        | some e =>
          if IsAuthenticationError (some e) then
            if remaining = 0 then
              ⟨some maxAttemptsError, a.api, 1, 0, 1, a.netCallIds⟩
            else
              let rest := authLoop reads anet a.api (idx + 1) remaining
              ⟨rest.err, rest.api, rest.reads + 1, rest.prompts + 1,
                rest.authCalls + 1, a.netCallIds ++ rest.netCallIds⟩
          else ⟨some e, a.api, 1, 0, 1, a.netCallIds⟩

/-- `requestAuthentication` (main.go): print the initial prompt (counted
here), then run the password loop with `attempts = 0`. -/
def requestAuthentication (api : CacophonyUserAPI)
    (reads : Nat → Except String String)
    (anet : Nat → NetOutcome TokenResponseBody) : AuthLoopResult :=
  let r := authLoop reads anet api 0 maxPasswordAttempts
  { r with prompts := r.prompts + 1 }

/-- Result of `authenticateUser`. -/
structure AuthUserResult where
  err : Option GoError
  api : CacophonyUserAPI
  netCallIds : List (String × String)
deriving DecidableEq, Repr

/-- `authenticateUser` (main.go): run the password loop when the session
is not yet authenticated, then always call `SaveTemporaryToken LongTTL`. -/
def authenticateUser (api : CacophonyUserAPI)
    (reads : Nat → Except String String)
    (anet : Nat → NetOutcome TokenResponseBody)
    (snet : NetOutcome TokenResponseBody) (saveResult : Option GoError) : AuthUserResult :=
  if api.authenticated then
    let s := SaveTemporaryToken api LongTTL snet saveResult
    ⟨s.err, s.api, s.netCallIds⟩
  else
    let r := requestAuthentication api reads anet
    match r.err with
    | some e => ⟨some e, r.api, r.netCallIds⟩
    | none =>
      let s := SaveTemporaryToken r.api LongTTL snet saveResult
      ⟨s.err, s.api, r.netCallIds ++ s.netCallIds⟩

/-- Result of the resolution phase of `runMain`. -/
structure ResolveResult where
  devices : Option (List Device)
  err : Option GoError
  api : CacophonyUserAPI
  translateCalls : Nat
  reauths : Nat
  netCallIds : List (String × String)
deriving DecidableEq, Repr

/-- The resolution slice of `runMain` (main.go lines 232–245): call
`TranslateNames`; if the error is authentication-classified,
re-authenticate via `authenticateUser` (counted in `reauths`), returning
its error on failure, and otherwise call `TranslateNames` exactly once
more; any remaining error is returned.  `tnet i` is the HTTP outcome of
the i-th `TranslateNames` call. -/
def resolvePhase (api : CacophonyUserAPI) (groups : List String)
    (devs : List Device) (tnet : Nat → NetOutcome DeviceResponse)
    (reads : Nat → Except String String)
    (anet : Nat → NetOutcome TokenResponseBody)
    (snet : NetOutcome TokenResponseBody) (saveResult : Option GoError) : ResolveResult :=
  let t0 := TranslateNames api groups devs (tnet 0)
  if IsAuthenticationError t0.err then
    let a := authenticateUser t0.api reads anet snet saveResult
    match a.err with
    | some e => ⟨none, some e, a.api, 1, 1, t0.netCallIds ++ a.netCallIds⟩
    | none =>
      let t1 := TranslateNames a.api groups devs (tnet 1)
      match t1.err with
      | some e =>
        ⟨none, some e, t1.api, 2, 1, t0.netCallIds ++ a.netCallIds ++ t1.netCallIds⟩
      | none =>
        ⟨t1.devices, none, t1.api, 2, 1, t0.netCallIds ++ a.netCallIds ++ t1.netCallIds⟩
  else
    match t0.err with
    | some e => ⟨none, some e, t0.api, 1, 0, t0.netCallIds⟩
    | none => ⟨t0.devices, none, t0.api, 1, 0, t0.netCallIds⟩

/-- Result of `runSaltForDevices`. -/
structure SaltResult where
  err : Option GoError
  saltInvoked : Bool
deriving DecidableEq, Repr

/-- `runSaltForDevices` (main.go): an empty device list is the terminal
`No valid devices found` error and salt is not run; otherwise salt is
invoked (`saltResult` is its outcome; the argument assembly — id
prefixing and the `-L` flag — is the out-of-scope collaborator boundary
of spec §1/§6). -/
def runSaltForDevices (serverURL : String) (devices : List Device)
    (argCommands : List String) (saltResult : Option GoError) : SaltResult :=
  if devices.length = 0 then ⟨some (GoError.plain "No valid devices found"), false⟩
  else ⟨saltResult, true⟩

/-- Result of `runMainCore`. -/
structure RunResult where
  err : Option GoError
  devices : Option (List Device)
  api : CacophonyUserAPI
  translateCalls : Nat
  reauths : Nat
  netCallIds : List (String × String)
  saltInvoked : Bool
deriving DecidableEq, Repr

/-- The tail of `runMain` after authentication: resolve, then on success
hand the devices to `runSaltForDevices`.  `pre` carries the identity
pairs of network calls already issued earlier in the invocation. -/
def runAfterAuth (api : CacophonyUserAPI) (groups : List String)
    (devs : List Device) (tnet : Nat → NetOutcome DeviceResponse)
    (reads : Nat → Except String String)
    (anet : Nat → NetOutcome TokenResponseBody)
    (snet : NetOutcome TokenResponseBody) (saveResult : Option GoError)
    (cmds : List String) (saltResult : Option GoError)
    (pre : List (String × String)) : RunResult :=
  let r := resolvePhase api groups devs tnet reads anet snet saveResult
  match r.err with
  | some e => ⟨some e, none, r.api, r.translateCalls, r.reauths, pre ++ r.netCallIds, false⟩
  | none =>
    let s := runSaltForDevices r.api.serverURL (r.devices.getD []) cmds saltResult
    ⟨s.err, r.devices, r.api, r.translateCalls, r.reauths, pre ++ r.netCallIds,
      s.saltInvoked⟩

/-- The resolve-then-invoke path of `runMain` (main.go, from the
`NewConfig` call on): set up the identity (interactively completing it if
needed), build the client, authenticate first if no cached token is
present, then resolve and run salt. -/
def runMainCore (tokRl : LockAttempt) (tokFile : FileState (Except String TokenConfig))
    (idRl : LockAttempt) (idFile : FileState (Except String IdRecord))
    (inS inU : String) (reads : Nat → Except String String)
    (anet : Nat → NetOutcome TokenResponseBody)
    (snet : NetOutcome TokenResponseBody) (saveResult : Option GoError)
    (groups : List String) (devs : List Device)
    (tnet : Nat → NetOutcome DeviceResponse)
    (cmds : List String) (saltResult : Option GoError) : RunResult :=
  let conf := setupIdentity tokRl tokFile idRl idFile inS inU
  let api := New conf
  if api.token = "" then
    let a := authenticateUser api reads anet snet saveResult
    match a.err with
    | some e => ⟨some e, none, a.api, 0, 0, a.netCallIds, false⟩
    | none =>
      runAfterAuth a.api groups devs tnet reads anet snet saveResult cmds saltResult
        a.netCallIds
  else
    runAfterAuth api groups devs tnet reads anet snet saveResult cmds saltResult []

/-! ## Helper lemmas about response classification -/

/-- A 401 status is classified as the authentication-flagged error. -/
theorem handleHTTPResponse_401 {resp : HTTPResponse} (hcode : resp.statusCode = 401) :
    handleHTTPResponse resp = some (GoError.api (authFailedMessage 401) false true) := by
  simp [handleHTTPResponse, isAuthorizationError, hcode]

/-- A 2xx status is classified as no error. -/
theorem handleHTTPResponse_success {resp : HTTPResponse}
    (h1 : 200 ≤ resp.statusCode) (h2 : resp.statusCode < 300) :
    handleHTTPResponse resp = none := by
  have ha : (resp.statusCode == 401) = false := by
    refine beq_eq_false_iff_ne.mpr ?_
    omega
  have hs : isHTTPSuccess resp.statusCode = true := by
    simp [isHTTPSuccess]
    omega
  simp [handleHTTPResponse, isAuthorizationError, ha, hs]

/-! ## C5 -/

/-- Claim C5: for every HTTP response processed by a network call, 401 is
classified as a recoverable authentication error; any other 4xx as a
permanent client error carrying the response body; 5xx as a
non-permanent, non-authentication error; 2xx as no classification error,
with a malformed JSON body on a 2xx response yielding a decode error. -/
theorem c5_response_classification (resp : HTTPResponse) (hbody : resp.bodyReadOk = true) :
    (resp.statusCode = 401 →
      handleHTTPResponse resp = some (GoError.api (authFailedMessage 401) false true) ∧
      IsAuthenticationError (handleHTTPResponse resp) = true) ∧
    (400 ≤ resp.statusCode → resp.statusCode < 500 → resp.statusCode ≠ 401 →
      handleHTTPResponse resp =
        some (GoError.api (requestFailedMessage resp.statusCode resp.body) true false)) ∧
    (500 ≤ resp.statusCode → resp.statusCode < 600 →
      handleHTTPResponse resp =
        some (GoError.api (requestFailedMessage resp.statusCode resp.body) false false)) ∧
    (200 ≤ resp.statusCode → resp.statusCode < 300 → handleHTTPResponse resp = none) ∧
    (∀ (api : CacophonyUserAPI) (groups : List String) (devs : List Device) (m : String),
      api.token ≠ "" → 200 ≤ resp.statusCode → resp.statusCode < 300 →
      (TranslateNames api groups devs (NetOutcome.response resp (Except.error m))).err =
        some (GoError.plain ("decode: " ++ m))) := by
  refine ⟨?_, ?_, ?_, ?_, ?_⟩
  · intro hcode
    have h := handleHTTPResponse_401 hcode
    rw [h]
    simp [IsAuthenticationError]
  · intro h1 h2 h3
    have ha : (resp.statusCode == 401) = false := beq_eq_false_iff_ne.mpr h3
    have hs : isHTTPSuccess resp.statusCode = false := by
      simp [isHTTPSuccess]
      omega
    have hc : isHTTPClientError resp.statusCode = true := by
      simp [isHTTPClientError]
      omega
    simp [handleHTTPResponse, isAuthorizationError, ha, hs, hc, hbody]
  · intro h1 h2
    have ha : (resp.statusCode == 401) = false := by
      refine beq_eq_false_iff_ne.mpr ?_
      omega
    have hs : isHTTPSuccess resp.statusCode = false := by
      simp [isHTTPSuccess]
      omega
    have hc : isHTTPClientError resp.statusCode = false := by
      simp [isHTTPClientError]
      omega
    simp [handleHTTPResponse, isAuthorizationError, ha, hs, hc, hbody]
  · intro h1 h2
    exact handleHTTPResponse_success h1 h2
  · intro api groups devs m htok h1 h2
    have h := handleHTTPResponse_success h1 h2
    simp [TranslateNames, htok, h]

/-- Witness for C5 at concrete 401, 404, 503 and 200 responses. -/
theorem c5_witness :
    handleHTTPResponse ⟨401, "", true⟩ =
      some (GoError.api (authFailedMessage 401) false true) ∧
    handleHTTPResponse ⟨404, "not found", true⟩ =
      some (GoError.api (requestFailedMessage 404 "not found") true false) ∧
    handleHTTPResponse ⟨503, "oops", true⟩ =
      some (GoError.api (requestFailedMessage 503 "oops") false false) ∧
    handleHTTPResponse ⟨200, "", true⟩ = none ∧
    (TranslateNames ⟨"alice", "https://api.example.org", "JWT abc", true⟩ ["group1"] []
        (NetOutcome.response ⟨200, "", true⟩ (Except.error "bad json"))).err =
      some (GoError.plain ("decode: " ++ "bad json")) :=
  ⟨((c5_response_classification ⟨401, "", true⟩ rfl).1 rfl).1,
    (c5_response_classification ⟨404, "not found", true⟩ rfl).2.1
      (by decide) (by decide) (by decide),
    (c5_response_classification ⟨503, "oops", true⟩ rfl).2.2.1 (by decide) (by decide),
    (c5_response_classification ⟨200, "", true⟩ rfl).2.2.2.1 (by decide) (by decide),
    (c5_response_classification ⟨200, "", true⟩ rfl).2.2.2.2
      ⟨"alice", "https://api.example.org", "JWT abc", true⟩ ["group1"] [] "bad json"
      (by decide) (by decide) (by decide)⟩

/-! ## C4 -/

/-- A client with a usable session token. -/
def apiWithToken : CacophonyUserAPI := ⟨"alice", "https://api.example.org", "JWT abc", true⟩

/-- A successful token-exchange round trip. -/
def okTokenNet : NetOutcome TokenResponseBody :=
  NetOutcome.response ⟨200, "", true⟩ (Except.ok ⟨[], "newtoken", 7⟩)

/-- A lock-timeout failure from `saveTokenConfig`. -/
def lockFailErr : GoError := GoError.plain "file is not locked"

/-- Claim C4 (code bug): the error returned by `SaveTemporaryToken` never
depends on the outcome of the token persistence, and in particular a
successful exchange whose `saveTokenConfig` fails with a lock error is
still reported as success (`err = none`) — the `err =
saveTokenConfig(...)` assignment is dropped by the following
`return nil`. -/
theorem c4_persist_error_dropped :
    (∀ (api : CacophonyUserAPI) (ttl : String) (net : NetOutcome TokenResponseBody)
      (s : Option GoError),
      (SaveTemporaryToken api ttl net s).err = (SaveTemporaryToken api ttl net none).err) ∧
    (SaveTemporaryToken apiWithToken LongTTL okTokenNet (some lockFailErr)).err = none ∧
    (SaveTemporaryToken apiWithToken LongTTL okTokenNet (some lockFailErr)).persistCalled
      = true ∧
    (SaveTemporaryToken apiWithToken LongTTL okTokenNet (some lockFailErr)).persistResult
      = some lockFailErr := by
  refine ⟨?_, rfl, rfl, rfl⟩
  intro api ttl net s
  by_cases htok : api.token = ""
  · simp [SaveTemporaryToken, htok]
  · cases net with
    | transportErr m => simp [SaveTemporaryToken, htok]
    | response resp dec =>
      cases h : handleHTTPResponse resp with
      | some e => simp [SaveTemporaryToken, htok, h]
      | none => cases dec <;> simp [SaveTemporaryToken, htok, h]

/-! ## C8 -/

/-- Claim C8: with an empty session token, `SaveTemporaryToken` fails with
the no-credential error and `TranslateNames` fails with the recoverable
authentication-flagged error; neither issues a network request nor
changes the session state. -/
theorem c8_empty_token_guards (api : CacophonyUserAPI) (ttl : String)
    (netT : NetOutcome TokenResponseBody) (groups : List String) (devs : List Device)
    (netD : NetOutcome DeviceResponse) (saveResult : Option GoError)
    (h : api.token = "") :
    SaveTemporaryToken api ttl netT saveResult =
      ⟨some (GoError.plain "No Token found"), api, false, none, []⟩ ∧
    TranslateNames api groups devs netD =
      ⟨none, some (GoError.api "No Token Supplied" false true), api, []⟩ ∧
    IsAuthenticationError (TranslateNames api groups devs netD).err = true := by
  refine ⟨?_, ?_, ?_⟩
  · simp [SaveTemporaryToken, h]
  · simp [TranslateNames, h]
  · simp [TranslateNames, h, IsAuthenticationError]

/-- Witness for C8 at a concrete token-less session. -/
theorem c8_witness :
    SaveTemporaryToken ⟨"alice", "https://api.example.org", "", false⟩ LongTTL
        (NetOutcome.transportErr "t") none =
      ⟨some (GoError.plain "No Token found"),
        ⟨"alice", "https://api.example.org", "", false⟩, false, none, []⟩ ∧
    TranslateNames ⟨"alice", "https://api.example.org", "", false⟩ ["group1"] []
        (NetOutcome.transportErr "t") =
      ⟨none, some (GoError.api "No Token Supplied" false true),
        ⟨"alice", "https://api.example.org", "", false⟩, []⟩ ∧
    IsAuthenticationError
        (TranslateNames ⟨"alice", "https://api.example.org", "", false⟩ ["group1"] []
          (NetOutcome.transportErr "t")).err = true :=
  c8_empty_token_guards ⟨"alice", "https://api.example.org", "", false⟩ LongTTL
    (NetOutcome.transportErr "t") ["group1"] [] (NetOutcome.transportErr "t") none rfl

/-! ## C9 -/

/-- Claim C9: a resolution that succeeds with an empty device set is
terminal for the caller — `runSaltForDevices` returns the
`No valid devices found` error without invoking the external salt tool —
and is distinct from `TranslateNames` itself failing, which on an empty
2xx result it does not (it returns the empty list with no error). -/
theorem c9_no_valid_devices (url : String) (cmds : List String)
    (saltRes : Option GoError) (api : CacophonyUserAPI) (groups : List String)
    (devs : List Device) (resp : HTTPResponse)
    (htok : api.token ≠ "") (h1 : 200 ≤ resp.statusCode) (h2 : resp.statusCode < 300) :
    runSaltForDevices url [] cmds saltRes =
      ⟨some (GoError.plain "No valid devices found"), false⟩ ∧
    (TranslateNames api groups devs
        (NetOutcome.response resp (Except.ok ⟨[], [], 200⟩))).err = none ∧
    (TranslateNames api groups devs
        (NetOutcome.response resp (Except.ok ⟨[], [], 200⟩))).devices = some [] := by
  have h := handleHTTPResponse_success h1 h2
  refine ⟨?_, ?_, ?_⟩
  · simp [runSaltForDevices]
  · simp [TranslateNames, htok, h]
  · simp [TranslateNames, htok, h]

/-- Witness for C9 at a concrete empty 200 resolution. -/
theorem c9_witness :
    runSaltForDevices "https://api.example.org" [] ["test.ping"] none =
      ⟨some (GoError.plain "No valid devices found"), false⟩ ∧
    (TranslateNames apiWithToken ["group1"] []
        (NetOutcome.response ⟨200, "", true⟩ (Except.ok ⟨[], [], 200⟩))).err = none ∧
    (TranslateNames apiWithToken ["group1"] []
        (NetOutcome.response ⟨200, "", true⟩ (Except.ok ⟨[], [], 200⟩))).devices
      = some [] :=
  c9_no_valid_devices "https://api.example.org" ["test.ping"] none apiWithToken
    ["group1"] [] ⟨200, "", true⟩ (by decide) (by decide) (by decide)

/-! ## C10 -/

/-- Claim C10: when the persisted token file does not exist, the
lock-guarded read yields `(nil, nil)` and `readTokenConfig` yields the
zero-valued record with no error, so a first-ever run proceeds instead of
aborting. -/
theorem c10_missing_token_cache (rl : LockAttempt)
    (h1 : rl.locked = true) (h2 : rl.err = none) :
    lockSafeRead false rl (FileState.missing : FileState (Except String TokenConfig)) =
      ⟨none, none⟩ ∧
    readTokenConfig rl FileState.missing = (emptyTokenConfig, none) ∧
    emptyTokenConfig.token = "" := by
  have hr : lockSafeRead false rl
      (FileState.missing : FileState (Except String TokenConfig)) = ⟨none, none⟩ := by
    simp [lockSafeRead, h1, h2, readFileStep]
  refine ⟨hr, ?_, rfl⟩
  simp [readTokenConfig, hr, unmarshalStep]

/-- Witness for C10 at a concrete successful lock acquisition. -/
theorem c10_witness :
    lockSafeRead false ⟨true, none⟩
        (FileState.missing : FileState (Except String TokenConfig)) = ⟨none, none⟩ ∧
    readTokenConfig ⟨true, none⟩ FileState.missing = (emptyTokenConfig, none) ∧
    emptyTokenConfig.token = "" :=
  c10_missing_token_cache ⟨true, none⟩ rfl rfl

/-! ## C6 -/

/-- Claim C6: `NewConfig` adopts the cached token only when the stored
user name equals the identity's user name; a mismatch yields an empty
token and no error, a match returns the stored token unchanged. -/
theorem c6_token_user_match (tokRl idRl : LockAttempt) (s u u' t : String)
    (h1 : tokRl.locked = true) (h2 : tokRl.err = none)
    (h3 : idRl.locked = true) (h4 : idRl.err = none)
    (hs : s ≠ "") (hu : u ≠ "") :
    NewConfig tokRl (FileState.readable (Except.ok ⟨u', t⟩))
        idRl (FileState.readable (Except.ok ⟨s, u⟩)) =
      (⟨s, u, if u = u' then t else ""⟩, none) ∧
    (u ≠ u' →
      (NewConfig tokRl (FileState.readable (Except.ok ⟨u', t⟩))
        idRl (FileState.readable (Except.ok ⟨s, u⟩))).1.token = "") ∧
    (u = u' →
      (NewConfig tokRl (FileState.readable (Except.ok ⟨u', t⟩))
        idRl (FileState.readable (Except.ok ⟨s, u⟩))).1.token = t) := by
  have heq : NewConfig tokRl (FileState.readable (Except.ok ⟨u', t⟩))
      idRl (FileState.readable (Except.ok ⟨s, u⟩)) =
      (⟨s, u, if u = u' then t else ""⟩, none) := by
    simp [NewConfig, readTokenConfig, configRead, lockSafeRead, readFileStep,
      unmarshalStep, existsCheck, Config.Validate, h1, h2, h3, h4, hs, hu]
  refine ⟨heq, ?_, ?_⟩
  · intro hne
    rw [heq]
    simp [hne]
  · intro he
    rw [heq]
    simp [he]

/-- Witness for C6: a token cached for "bob" is dropped without an error
when the active identity is "alice", while a token cached for "alice" is
kept unchanged. -/
theorem c6_witness :
    (NewConfig ⟨true, none⟩ (FileState.readable (Except.ok ⟨"bob", "X"⟩))
        ⟨true, none⟩
        (FileState.readable (Except.ok ⟨"https://api.example.org", "alice"⟩))).1.token
      = "" ∧
    (NewConfig ⟨true, none⟩ (FileState.readable (Except.ok ⟨"bob", "X"⟩))
        ⟨true, none⟩
        (FileState.readable (Except.ok ⟨"https://api.example.org", "alice"⟩))).2
      = none ∧
    (NewConfig ⟨true, none⟩ (FileState.readable (Except.ok ⟨"alice", "X"⟩))
        ⟨true, none⟩
        (FileState.readable (Except.ok ⟨"https://api.example.org", "alice"⟩))).1.token
      = "X" :=
  ⟨(c6_token_user_match ⟨true, none⟩ ⟨true, none⟩ "https://api.example.org" "alice" "bob"
      "X" rfl rfl rfl rfl (by decide) (by decide)).2.1 (by decide),
    congrArg Prod.snd
      (c6_token_user_match ⟨true, none⟩ ⟨true, none⟩ "https://api.example.org" "alice"
        "bob" "X" rfl rfl rfl rfl (by decide) (by decide)).1,
    (c6_token_user_match ⟨true, none⟩ ⟨true, none⟩ "https://api.example.org" "alice"
      "alice" "X" rfl rfl rfl rfl (by decide) (by decide)).2.2 rfl⟩

/-! ## C2 and C3: the password-retry loop -/

/-- A non-empty password attempted against a 401 response leaves the
session unchanged and returns the authentication-flagged error. -/
theorem Authenticate_401 (api : CacophonyUserAPI) (pw : String) (resp : HTTPResponse)
    (dec : Except String TokenResponseBody)
    (hpw : pw ≠ "") (hcode : resp.statusCode = 401) :
    Authenticate api pw (NetOutcome.response resp dec) =
      ⟨some (GoError.api (authFailedMessage 401) false true), api,
        [(api.serverURL, api.username)]⟩ := by
  have h := handleHTTPResponse_401 hcode
  simp [Authenticate, hpw, h]

/-- When every password read succeeds with a non-empty password and every
authentication call gets a 401, the loop with a budget of `n + 1`
remaining attempts performs `n + 1` reads and authentication calls,
prints `n` retry prompts, leaves the session unchanged, and fails with
`Max Password Attempts`. -/
theorem authLoop_allfail (reads : Nat → Except String String)
    (anet : Nat → NetOutcome TokenResponseBody)
    (hreads : ∀ i, ∃ pw, reads i = Except.ok pw ∧ pw ≠ "")
    (hnet : ∀ i, ∃ resp dec, anet i = NetOutcome.response resp dec ∧ resp.statusCode = 401) :
    ∀ (n : Nat) (api : CacophonyUserAPI) (idx : Nat), api.authenticated = false →
      authLoop reads anet api idx (n + 1) =
        ⟨some maxAttemptsError, api, n + 1, n, n + 1,
          List.replicate (n + 1) (api.serverURL, api.username)⟩ := by
  intro n
  induction n with
  | zero =>
    intro api idx hauth
    obtain ⟨pw, hr, hpw⟩ := hreads idx
    obtain ⟨resp, dec, hn, hcode⟩ := hnet idx
    have ha : Authenticate api pw (anet idx) =
        ⟨some (GoError.api (authFailedMessage 401) false true), api,
          [(api.serverURL, api.username)]⟩ := by
      rw [hn]
      exact Authenticate_401 api pw resp dec hpw hcode
    simp [authLoop, hauth, hr, ha, IsAuthenticationError]
  | succ m ih =>
    intro api idx hauth
    obtain ⟨pw, hr, hpw⟩ := hreads idx
    obtain ⟨resp, dec, hn, hcode⟩ := hnet idx
    have ha : Authenticate api pw (anet idx) =
        ⟨some (GoError.api (authFailedMessage 401) false true), api,
          [(api.serverURL, api.username)]⟩ := by
      rw [hn]
      exact Authenticate_401 api pw resp dec hpw hcode
    have hrec := ih api (idx + 1) hauth
    rw [authLoop]
    simp only [hauth, Bool.false_eq_true, if_false, hr, ha, IsAuthenticationError,
      Nat.succ_ne_zero, ite_false]
    rw [hrec]
    simp [List.replicate_succ]

/-- Claim C2: when every authentication attempt fails as a wrong
credential (a 401-classified response) and every password read yields a
non-empty password, the controller reads a password exactly 3 times,
prints exactly 3 prompts, calls `Authenticate` exactly 3 times, and then
fails terminally with the `Max Password Attempts` error. -/
theorem c2_three_attempts_then_terminal (api : CacophonyUserAPI)
    (reads : Nat → Except String String) (anet : Nat → NetOutcome TokenResponseBody)
    (hauth : api.authenticated = false)
    (hreads : ∀ i, ∃ pw, reads i = Except.ok pw ∧ pw ≠ "")
    (hnet : ∀ i, ∃ resp dec, anet i = NetOutcome.response resp dec ∧ resp.statusCode = 401) :
    (requestAuthentication api reads anet).err = some maxAttemptsError ∧
    (requestAuthentication api reads anet).reads = 3 ∧
    (requestAuthentication api reads anet).prompts = 3 ∧
    (requestAuthentication api reads anet).authCalls = 3 := by
  have h := authLoop_allfail reads anet hreads hnet 2 api 0 hauth
  have h3 : maxPasswordAttempts = 2 + 1 := rfl
  simp [requestAuthentication, h3, h]

/-- A client that is not yet authenticated. -/
def apiNoAuth : CacophonyUserAPI := ⟨"alice", "https://api.example.org", "", false⟩

/-- Witness for C2: wrong password entered on every attempt. -/
theorem c2_witness :
    (requestAuthentication apiNoAuth (fun _ => Except.ok "wrongpw")
        (fun _ => NetOutcome.response ⟨401, "", true⟩ (Except.error "unauthorised"))).err
      = some maxAttemptsError ∧
    (requestAuthentication apiNoAuth (fun _ => Except.ok "wrongpw")
        (fun _ => NetOutcome.response ⟨401, "", true⟩ (Except.error "unauthorised"))).reads
      = 3 ∧
    (requestAuthentication apiNoAuth (fun _ => Except.ok "wrongpw")
        (fun _ => NetOutcome.response ⟨401, "", true⟩ (Except.error "unauthorised"))).prompts
      = 3 ∧
    (requestAuthentication apiNoAuth (fun _ => Except.ok "wrongpw")
        (fun _ => NetOutcome.response ⟨401, "", true⟩ (Except.error "unauthorised"))).authCalls
      = 3 :=
  c2_three_attempts_then_terminal apiNoAuth (fun _ => Except.ok "wrongpw")
    (fun _ => NetOutcome.response ⟨401, "", true⟩ (Except.error "unauthorised"))
    rfl (fun _ => ⟨"wrongpw", rfl, by decide⟩)
    (fun _ => ⟨⟨401, "", true⟩, Except.error "unauthorised", rfl, rfl⟩)

/-- A second not-yet-authenticated client, used for the C3 counterexample. -/
def apiC3 : CacophonyUserAPI := ⟨"carol", "https://api.example.org", "", false⟩

/-- Counterexample to claim C3 as stated: an empty password read makes
the loop return the plain `empty password` error immediately — after a
single read, a single prompt and a single `Authenticate` call — instead
of incrementing the attempt counter and re-prompting; the error is not
authentication-classified. -/
theorem c3_counterexample :
    (requestAuthentication apiC3 (fun _ => Except.ok "")
        (fun _ => NetOutcome.transportErr "t")).err = some (GoError.plain "empty password") ∧
    (requestAuthentication apiC3 (fun _ => Except.ok "")
        (fun _ => NetOutcome.transportErr "t")).reads = 1 ∧
    (requestAuthentication apiC3 (fun _ => Except.ok "")
        (fun _ => NetOutcome.transportErr "t")).prompts = 1 ∧
    (requestAuthentication apiC3 (fun _ => Except.ok "")
        (fun _ => NetOutcome.transportErr "t")).authCalls = 1 ∧
    IsAuthenticationError (some (GoError.plain "empty password")) = false :=
  ⟨rfl, rfl, rfl, rfl, rfl⟩

/-- Claim C3 as amended: an authenticate attempt that fails with the
`InvalidInput` empty-password error aborts the `AwaitingPassword` loop
immediately — the plain `empty password` error is returned to the caller
after exactly one read, one prompt and one `Authenticate` call, with the
session unchanged — because that error is not authentication-classified;
only wrong-credential responses increment the attempt counter and
re-prompt. -/
theorem c3_empty_password_aborts (api : CacophonyUserAPI)
    (reads : Nat → Except String String) (anet : Nat → NetOutcome TokenResponseBody)
    (hauth : api.authenticated = false) (hr : reads 0 = Except.ok "") :
    requestAuthentication api reads anet =
      ⟨some (GoError.plain "empty password"), api, 1, 1, 1, []⟩ ∧
    IsAuthenticationError (some (GoError.plain "empty password")) = false := by
  have h3 : maxPasswordAttempts = 2 + 1 := rfl
  have ha : Authenticate api "" (anet 0) =
      ⟨some (GoError.plain "empty password"), api, []⟩ := by
    simp [Authenticate]
  refine ⟨?_, rfl⟩
  simp [requestAuthentication, h3, authLoop, hauth, hr, ha, IsAuthenticationError]

/-- Witness for the amended C3 at a concrete empty-password entry. -/
theorem c3_witness :
    requestAuthentication apiNoAuth (fun _ => Except.ok "")
        (fun _ => NetOutcome.response ⟨401, "", true⟩ (Except.error "unauthorised")) =
      ⟨some (GoError.plain "empty password"), apiNoAuth, 1, 1, 1, []⟩ ∧
    IsAuthenticationError (some (GoError.plain "empty password")) = false :=
  c3_empty_password_aborts apiNoAuth (fun _ => Except.ok "")
    (fun _ => NetOutcome.response ⟨401, "", true⟩ (Except.error "unauthorised")) rfl rfl

/-! ## C1 -/

/-- Claim C1: when the first `TranslateNames` call returns an
authentication-classified error, the controller re-authenticates exactly
once (`reauths = 1`) and never calls `TranslateNames` more than twice;
when the re-authentication succeeds it calls `TranslateNames` exactly
once more and returns that second call's error verbatim (so a second
authentication error is terminal), and when the re-authentication fails
its error is returned with no second resolution call. -/
theorem c1_single_reauth_retry (api : CacophonyUserAPI) (groups : List String)
    (devs : List Device) (tnet : Nat → NetOutcome DeviceResponse)
    (reads : Nat → Except String String) (anet : Nat → NetOutcome TokenResponseBody)
    (snet : NetOutcome TokenResponseBody) (saveResult : Option GoError)
    (h : IsAuthenticationError (TranslateNames api groups devs (tnet 0)).err = true) :
    (resolvePhase api groups devs tnet reads anet snet saveResult).reauths = 1 ∧
    (resolvePhase api groups devs tnet reads anet snet saveResult).translateCalls ≤ 2 ∧
    ((authenticateUser (TranslateNames api groups devs (tnet 0)).api reads anet snet
        saveResult).err = none →
      (resolvePhase api groups devs tnet reads anet snet saveResult).translateCalls = 2 ∧
      (resolvePhase api groups devs tnet reads anet snet saveResult).err =
        (TranslateNames (authenticateUser (TranslateNames api groups devs (tnet 0)).api
          reads anet snet saveResult).api groups devs (tnet 1)).err) ∧
    (∀ e, (authenticateUser (TranslateNames api groups devs (tnet 0)).api reads anet snet
        saveResult).err = some e →
      (resolvePhase api groups devs tnet reads anet snet saveResult).err = some e ∧
      (resolvePhase api groups devs tnet reads anet snet saveResult).translateCalls = 1) := by
  cases ha : (authenticateUser (TranslateNames api groups devs (tnet 0)).api reads anet
      snet saveResult).err with
  | some e =>
    refine ⟨?_, ?_, ?_, ?_⟩ <;>
      simp [resolvePhase, h, ha]
  | none =>
    cases ht1 : (TranslateNames (authenticateUser (TranslateNames api groups devs (tnet 0)).api
        reads anet snet saveResult).api groups devs (tnet 1)).err with
    | some e1 =>
      refine ⟨?_, ?_, ?_, ?_⟩ <;>
        simp [resolvePhase, h, ha, ht1]
    | none =>
      refine ⟨?_, ?_, ?_, ?_⟩ <;>
        simp [resolvePhase, h, ha, ht1]

/-- First resolution 401, later resolutions succeed. -/
def tnetRetryOk : Nat → NetOutcome DeviceResponse := fun i =>
  if i = 0 then NetOutcome.response ⟨401, "", true⟩ (Except.error "x")
  else NetOutcome.response ⟨200, "", true⟩ (Except.ok ⟨[], [⟨"group1", "dev", 7⟩], 200⟩)

/-- Every resolution gets a 401. -/
def tnet401 : Nat → NetOutcome DeviceResponse :=
  fun _ => NetOutcome.response ⟨401, "", true⟩ (Except.error "x")

/-- A 401 on the token-exchange endpoint. -/
def snet401 : NetOutcome TokenResponseBody :=
  NetOutcome.response ⟨401, "", true⟩ (Except.error "x")

/-- Witness for C1: a first 401 with a succeeding re-authentication gives
exactly one re-auth and exactly two resolution calls; a first 401 with a
failing re-authentication returns the re-auth error after a single
resolution call. -/
theorem c1_witness :
    (resolvePhase apiWithToken ["group1"] [] tnetRetryOk (fun _ => Except.ok "secret")
        (fun _ => okTokenNet) okTokenNet none).reauths = 1 ∧
    (resolvePhase apiWithToken ["group1"] [] tnetRetryOk (fun _ => Except.ok "secret")
        (fun _ => okTokenNet) okTokenNet none).translateCalls = 2 ∧
    (resolvePhase apiWithToken ["group1"] [] tnet401 (fun _ => Except.ok "wrong")
        (fun _ => snet401) snet401 none).err =
      some (GoError.api (authFailedMessage 401) false true) ∧
    (resolvePhase apiWithToken ["group1"] [] tnet401 (fun _ => Except.ok "wrong")
        (fun _ => snet401) snet401 none).translateCalls = 1 :=
  ⟨(c1_single_reauth_retry apiWithToken ["group1"] [] tnetRetryOk
      (fun _ => Except.ok "secret") (fun _ => okTokenNet) okTokenNet none (by decide)).1,
    ((c1_single_reauth_retry apiWithToken ["group1"] [] tnetRetryOk
      (fun _ => Except.ok "secret") (fun _ => okTokenNet) okTokenNet none
      (by decide)).2.2.1 (by decide)).1,
    ((c1_single_reauth_retry apiWithToken ["group1"] [] tnet401
      (fun _ => Except.ok "wrong") (fun _ => snet401) snet401 none (by decide)).2.2.2
      (GoError.api (authFailedMessage 401) false true) (by decide)).1,
    ((c1_single_reauth_retry apiWithToken ["group1"] [] tnet401
      (fun _ => Except.ok "wrong") (fun _ => snet401) snet401 none (by decide)).2.2.2
      (GoError.api (authFailedMessage 401) false true) (by decide)).2⟩

/-! ## C7: identity at network calls

Every operation leaves `serverURL` and `username` unchanged, and every
network request it issues targets the current `serverURL`/`username`
pair, so every entry of `netCallIds` in a whole run equals the identity
produced by `setupIdentity`. -/

/-- `Authenticate` never changes the identity fields and every request it
issues targets them. -/
theorem Authenticate_identity (api : CacophonyUserAPI) (pw : String)
    (net : NetOutcome TokenResponseBody) :
    (Authenticate api pw net).api.serverURL = api.serverURL ∧
    (Authenticate api pw net).api.username = api.username ∧
    ∀ p ∈ (Authenticate api pw net).netCallIds, p = (api.serverURL, api.username) := by
  by_cases hpw : pw = ""
  · simp [Authenticate, hpw]
  · cases net with
    | transportErr m => simp [Authenticate, hpw]
    | response resp dec =>
      cases h : handleHTTPResponse resp with
      | some e => simp [Authenticate, hpw, h]
      | none => cases dec <;> simp [Authenticate, hpw, h]

/-- `SaveTemporaryToken` never changes the client state. -/
theorem SaveTemporaryToken_api_eq (api : CacophonyUserAPI) (ttl : String)
    (net : NetOutcome TokenResponseBody) (saveResult : Option GoError) :
    (SaveTemporaryToken api ttl net saveResult).api = api := by
  by_cases htok : api.token = ""
  · simp [SaveTemporaryToken, htok]
  · cases net with
    | transportErr m => simp [SaveTemporaryToken, htok]
    | response resp dec =>
      cases h : handleHTTPResponse resp with
      | some e => simp [SaveTemporaryToken, htok, h]
      | none => cases dec <;> simp [SaveTemporaryToken, htok, h]

/-- Every request `SaveTemporaryToken` issues targets the current
identity. -/
theorem SaveTemporaryToken_identity (api : CacophonyUserAPI) (ttl : String)
    (net : NetOutcome TokenResponseBody) (saveResult : Option GoError) :
    ∀ p ∈ (SaveTemporaryToken api ttl net saveResult).netCallIds,
      p = (api.serverURL, api.username) := by
  by_cases htok : api.token = ""
  · simp [SaveTemporaryToken, htok]
  · cases net with
    | transportErr m => simp [SaveTemporaryToken, htok]
    | response resp dec =>
      cases h : handleHTTPResponse resp with
      | some e => simp [SaveTemporaryToken, htok, h]
      | none => cases dec <;> simp [SaveTemporaryToken, htok, h]

/-- `TranslateNames` never changes the identity fields and every request
it issues targets them. -/
theorem TranslateNames_identity (api : CacophonyUserAPI) (groups : List String)
    (devs : List Device) (net : NetOutcome DeviceResponse) :
    (TranslateNames api groups devs net).api.serverURL = api.serverURL ∧
    (TranslateNames api groups devs net).api.username = api.username ∧
    ∀ p ∈ (TranslateNames api groups devs net).netCallIds,
      p = (api.serverURL, api.username) := by
  by_cases htok : api.token = ""
  · simp [TranslateNames, htok]
  · cases net with
    | transportErr m => simp [TranslateNames, htok]
    | response resp dec =>
      cases h : handleHTTPResponse resp with
      | some e => simp [TranslateNames, htok, h]
      | none => cases dec <;> simp [TranslateNames, htok, h]

/-- The password loop never changes the identity fields and every request
it issues targets them. -/
theorem authLoop_identity (reads : Nat → Except String String)
    (anet : Nat → NetOutcome TokenResponseBody) :
    ∀ (n : Nat) (api : CacophonyUserAPI) (idx : Nat),
      (authLoop reads anet api idx n).api.serverURL = api.serverURL ∧
      (authLoop reads anet api idx n).api.username = api.username ∧
      ∀ p ∈ (authLoop reads anet api idx n).netCallIds,
        p = (api.serverURL, api.username) := by
  intro n
  induction n with
  | zero => intro api idx; simp [authLoop]
  | succ m ih =>
    intro api idx
    by_cases hauth : api.authenticated
    · simp [authLoop, hauth]
    · cases hr : reads idx with
      | error e => simp [authLoop, hauth, hr]
      | ok pw =>
        obtain ⟨has, hau, ham⟩ := Authenticate_identity api pw (anet idx)
        cases ha : (Authenticate api pw (anet idx)).err with
        | none =>
          simp only [authLoop, hauth, Bool.false_eq_true, if_false, hr, ha]
          exact ⟨has, hau, ham⟩
        | some e =>
          by_cases hae : IsAuthenticationError (some e) = true
          · by_cases hm : m = 0
            · subst hm
              simp only [authLoop, hauth, Bool.false_eq_true, if_false, hr, ha, hae,
                ite_true]
              exact ⟨has, hau, ham⟩
            · obtain ⟨hrs, hru, hrm⟩ := ih (Authenticate api pw (anet idx)).api (idx + 1)
              simp only [authLoop, hauth, Bool.false_eq_true, if_false, hr, ha, hae,
                ite_true, hm, ite_false]
              refine ⟨by rw [hrs, has], by rw [hru, hau], ?_⟩
              intro p hp
              rcases List.mem_append.mp hp with h1 | h2
              · exact ham p h1
              · rw [hrm p h2, has, hau]
          · simp only [authLoop, hauth, Bool.false_eq_true, if_false, hr, ha, hae,
              ite_false]
            exact ⟨has, hau, ham⟩

/-- `requestAuthentication` never changes the identity fields and every
request it issues targets them. -/
theorem requestAuthentication_identity (api : CacophonyUserAPI)
    (reads : Nat → Except String String) (anet : Nat → NetOutcome TokenResponseBody) :
    (requestAuthentication api reads anet).api.serverURL = api.serverURL ∧
    (requestAuthentication api reads anet).api.username = api.username ∧
    ∀ p ∈ (requestAuthentication api reads anet).netCallIds,
      p = (api.serverURL, api.username) := by
  simpa [requestAuthentication] using
    authLoop_identity reads anet maxPasswordAttempts api 0

/-- `authenticateUser` never changes the identity fields and every
request it issues targets them. -/
theorem authenticateUser_identity (api : CacophonyUserAPI)
    (reads : Nat → Except String String) (anet : Nat → NetOutcome TokenResponseBody)
    (snet : NetOutcome TokenResponseBody) (saveResult : Option GoError) :
    (authenticateUser api reads anet snet saveResult).api.serverURL = api.serverURL ∧
    (authenticateUser api reads anet snet saveResult).api.username = api.username ∧
    ∀ p ∈ (authenticateUser api reads anet snet saveResult).netCallIds,
      p = (api.serverURL, api.username) := by
  by_cases hauth : api.authenticated
  · have he := SaveTemporaryToken_api_eq api LongTTL snet saveResult
    have hm := SaveTemporaryToken_identity api LongTTL snet saveResult
    simp only [authenticateUser, hauth, ite_true]
    exact ⟨by rw [he], by rw [he], hm⟩
  · obtain ⟨hrs, hru, hrm⟩ := requestAuthentication_identity api reads anet
    cases hr : (requestAuthentication api reads anet).err with
    | some e =>
      simp only [authenticateUser, hauth, Bool.false_eq_true, if_false, hr]
      exact ⟨hrs, hru, hrm⟩
    | none =>
      have he := SaveTemporaryToken_api_eq (requestAuthentication api reads anet).api
        LongTTL snet saveResult
      have hm := SaveTemporaryToken_identity (requestAuthentication api reads anet).api
        LongTTL snet saveResult
      simp only [authenticateUser, hauth, Bool.false_eq_true, if_false, hr]
      refine ⟨by rw [he, hrs], by rw [he, hru], ?_⟩
      intro p hp
      rcases List.mem_append.mp hp with h1 | h2
      · exact hrm p h1
      · rw [hm p h2, hrs, hru]

/-- The resolution phase never changes the identity fields and every
request it issues targets them. -/
theorem resolvePhase_identity (api : CacophonyUserAPI) (groups : List String)
    (devs : List Device) (tnet : Nat → NetOutcome DeviceResponse)
    (reads : Nat → Except String String) (anet : Nat → NetOutcome TokenResponseBody)
    (snet : NetOutcome TokenResponseBody) (saveResult : Option GoError) :
    (resolvePhase api groups devs tnet reads anet snet saveResult).api.serverURL
      = api.serverURL ∧
    (resolvePhase api groups devs tnet reads anet snet saveResult).api.username
      = api.username ∧
    ∀ p ∈ (resolvePhase api groups devs tnet reads anet snet saveResult).netCallIds,
      p = (api.serverURL, api.username) := by
  obtain ⟨h0s, h0u, h0m⟩ := TranslateNames_identity api groups devs (tnet 0)
  obtain ⟨hAs, hAu, hAm⟩ := authenticateUser_identity
    (TranslateNames api groups devs (tnet 0)).api reads anet snet saveResult
  obtain ⟨h1s, h1u, h1m⟩ := TranslateNames_identity
    (authenticateUser (TranslateNames api groups devs (tnet 0)).api reads anet snet
      saveResult).api groups devs (tnet 1)
  by_cases hiae : IsAuthenticationError (TranslateNames api groups devs (tnet 0)).err = true
  · cases ha : (authenticateUser (TranslateNames api groups devs (tnet 0)).api reads anet
        snet saveResult).err with
    | some e =>
      simp only [resolvePhase, hiae, ite_true, ha]
      refine ⟨by rw [hAs, h0s], by rw [hAu, h0u], ?_⟩
      intro p hp
      rcases List.mem_append.mp hp with h1 | h2
      · exact h0m p h1
      · rw [hAm p h2, h0s, h0u]
    | none =>
      cases ht1 : (TranslateNames (authenticateUser (TranslateNames api groups devs
          (tnet 0)).api reads anet snet saveResult).api groups devs (tnet 1)).err with
      | some e1 =>
        simp only [resolvePhase, hiae, ite_true, ha, ht1]
        refine ⟨by rw [h1s, hAs, h0s], by rw [h1u, hAu, h0u], ?_⟩
        intro p hp
        rcases List.mem_append.mp hp with h12 | h3
        · rcases List.mem_append.mp h12 with h1 | h2
          · exact h0m p h1
          · rw [hAm p h2, h0s, h0u]
        · rw [h1m p h3, hAs, hAu, h0s, h0u]
      | none =>
        simp only [resolvePhase, hiae, ite_true, ha, ht1]
        refine ⟨by rw [h1s, hAs, h0s], by rw [h1u, hAu, h0u], ?_⟩
        intro p hp
        rcases List.mem_append.mp hp with h12 | h3
        · rcases List.mem_append.mp h12 with h1 | h2
          · exact h0m p h1
          · rw [hAm p h2, h0s, h0u]
        · rw [h1m p h3, hAs, hAu, h0s, h0u]
  · simp only [resolvePhase]
    rw [if_neg hiae]
    cases ht0 : (TranslateNames api groups devs (tnet 0)).err <;>
      exact ⟨h0s, h0u, h0m⟩

/-- `runAfterAuth` only adds the resolution phase's network calls to the
ones already recorded. -/
theorem runAfterAuth_netCallIds (api : CacophonyUserAPI) (groups : List String)
    (devs : List Device) (tnet : Nat → NetOutcome DeviceResponse)
    (reads : Nat → Except String String) (anet : Nat → NetOutcome TokenResponseBody)
    (snet : NetOutcome TokenResponseBody) (saveResult : Option GoError)
    (cmds : List String) (saltResult : Option GoError) (pre : List (String × String)) :
    (runAfterAuth api groups devs tnet reads anet snet saveResult cmds saltResult
        pre).netCallIds =
      pre ++ (resolvePhase api groups devs tnet reads anet snet saveResult).netCallIds := by
  unfold runAfterAuth
  cases h : (resolvePhase api groups devs tnet reads anet snet saveResult).err <;> simp [h]

/-- Every network call of a whole run targets the identity produced by
`setupIdentity`. -/
theorem runMainCore_identity (tokRl : LockAttempt)
    (tokFile : FileState (Except String TokenConfig)) (idRl : LockAttempt)
    (idFile : FileState (Except String IdRecord)) (inS inU : String)
    (reads : Nat → Except String String) (anet : Nat → NetOutcome TokenResponseBody)
    (snet : NetOutcome TokenResponseBody) (saveResult : Option GoError)
    (groups : List String) (devs : List Device) (tnet : Nat → NetOutcome DeviceResponse)
    (cmds : List String) (saltResult : Option GoError) :
    ∀ p ∈ (runMainCore tokRl tokFile idRl idFile inS inU reads anet snet saveResult
        groups devs tnet cmds saltResult).netCallIds,
      p = ((setupIdentity tokRl tokFile idRl idFile inS inU).serverURL,
        (setupIdentity tokRl tokFile idRl idFile inS inU).userName) := by
  intro p hp
  set conf := setupIdentity tokRl tokFile idRl idFile inS inU with hconf
  have hNs : (New conf).serverURL = conf.serverURL := rfl
  have hNu : (New conf).username = conf.userName := rfl
  obtain ⟨hAs, hAu, hAm⟩ := authenticateUser_identity (New conf) reads anet snet saveResult
  obtain ⟨hR1s, hR1u, hR1m⟩ := resolvePhase_identity
    (authenticateUser (New conf) reads anet snet saveResult).api groups devs tnet reads
    anet snet saveResult
  obtain ⟨hR0s, hR0u, hR0m⟩ := resolvePhase_identity (New conf) groups devs tnet reads
    anet snet saveResult
  by_cases htok : (New conf).token = ""
  · cases ha : (authenticateUser (New conf) reads anet snet saveResult).err with
    | some e =>
      rw [runMainCore] at hp
      rw [← hconf] at hp
      simp only [htok, ite_true, ha] at hp
      exact hAm p hp
    | none =>
      rw [runMainCore] at hp
      rw [← hconf] at hp
      simp only [htok, ite_true, ha, runAfterAuth_netCallIds] at hp
      rcases List.mem_append.mp hp with h1 | h2
      · exact hAm p h1
      · rw [hR1m p h2, hAs, hAu]
        exact rfl
  · rw [runMainCore] at hp
    rw [← hconf] at hp
    simp only [htok, ite_false, runAfterAuth_netCallIds] at hp
    rcases List.mem_append.mp hp with h1 | h2
    · cases h1
    · exact hR0m p h2

/-- A config that validates has non-empty identity fields. -/
theorem Validate_none_nonempty {conf : Config} (h : conf.Validate = none) :
    conf.serverURL ≠ "" ∧ conf.userName ≠ "" := by
  by_cases h1 : conf.serverURL = ""
  · simp [Config.Validate, h1] at h
  · by_cases h2 : conf.userName = ""
    · simp [Config.Validate, h1, h2] at h
    · exact ⟨h1, h2⟩

/-- A `NewConfig` that returns no error returns a config with non-empty
identity fields. -/
theorem NewConfig_ok_nonempty {tokRl : LockAttempt}
    {tokFile : FileState (Except String TokenConfig)} {idRl : LockAttempt}
    {idFile : FileState (Except String IdRecord)} {conf : Config}
    (h : NewConfig tokRl tokFile idRl idFile = (conf, none)) :
    conf.serverURL ≠ "" ∧ conf.userName ≠ "" := by
  unfold NewConfig at h
  split at h
  · simp at h
  · simp at h
  · dsimp only [] at h
    split at h
    · simp at h
    · split at h
      · simp at h
      · rename_i hv
        rw [Prod.mk.injEq] at h
        rw [← h.1]
        exact Validate_none_nonempty hv

/-- Interactive completion with non-empty inputs yields non-empty
identity fields. -/
theorem getMissingConfig_nonempty (conf : Config) (inS inU : String)
    (hs : inS ≠ "") (hu : inU ≠ "") :
    (getMissingConfig conf inS inU).serverURL ≠ "" ∧
    (getMissingConfig conf inS inU).userName ≠ "" := by
  unfold getMissingConfig
  by_cases h1 : conf.serverURL = "" <;> by_cases h2 : conf.userName = "" <;>
    simp [h1, h2, hs, hu]

/-- With non-empty interactive inputs, `setupIdentity` yields non-empty
identity fields on every path. -/
theorem setupIdentity_nonempty (tokRl : LockAttempt)
    (tokFile : FileState (Except String TokenConfig)) (idRl : LockAttempt)
    (idFile : FileState (Except String IdRecord)) (inS inU : String)
    (hs : inS ≠ "") (hu : inU ≠ "") :
    (setupIdentity tokRl tokFile idRl idFile inS inU).serverURL ≠ "" ∧
    (setupIdentity tokRl tokFile idRl idFile inS inU).userName ≠ "" := by
  unfold setupIdentity
  rcases hN : NewConfig tokRl tokFile idRl idFile with ⟨conf, eo⟩
  cases eo with
  | some e => exact getMissingConfig_nonempty conf inS inU hs hu
  | none => exact NewConfig_ok_nonempty hN

/-- Counterexample to claim C7 as stated: with the identity file missing
and both interactive entries left empty, the run still attempts a network
call, and that call is made with an empty serverURL and an empty
userName. -/
theorem c7_counterexample :
    (runMainCore ⟨true, none⟩ FileState.missing ⟨true, none⟩ FileState.missing "" ""
        (fun _ => Except.ok "pw") (fun _ => NetOutcome.transportErr "connection refused")
        (NetOutcome.transportErr "x") none ["group1"] []
        (fun _ => NetOutcome.transportErr "x") ["test.ping"] none).netCallIds =
      [("", "")] ∧
    (setupIdentity ⟨true, none⟩ FileState.missing ⟨true, none⟩ FileState.missing "" ""
      ).serverURL = "" ∧
    (setupIdentity ⟨true, none⟩ FileState.missing ⟨true, none⟩ FileState.missing "" ""
      ).userName = "" := by
  refine ⟨?_, rfl, rfl⟩
  rfl

/-- Claim C7 as amended: every network call in a run targets the active
identity's serverURL and userName, and these are non-empty on every path
— including the interactive-completion path — provided the interactively
entered values are non-empty; the code does not re-validate interactive
input, so an empty entry can reach a network call with an empty field. -/
theorem c7_identity_nonempty_at_calls (tokRl : LockAttempt)
    (tokFile : FileState (Except String TokenConfig)) (idRl : LockAttempt)
    (idFile : FileState (Except String IdRecord)) (inS inU : String)
    (reads : Nat → Except String String) (anet : Nat → NetOutcome TokenResponseBody)
    (snet : NetOutcome TokenResponseBody) (saveResult : Option GoError)
    (groups : List String) (devs : List Device) (tnet : Nat → NetOutcome DeviceResponse)
    (cmds : List String) (saltResult : Option GoError)
    (hs : inS ≠ "") (hu : inU ≠ "") :
    ∀ p ∈ (runMainCore tokRl tokFile idRl idFile inS inU reads anet snet saveResult
        groups devs tnet cmds saltResult).netCallIds,
      p.1 ≠ "" ∧ p.2 ≠ "" := by
  intro p hp
  have h := runMainCore_identity tokRl tokFile idRl idFile inS inU reads anet snet
    saveResult groups devs tnet cmds saltResult p hp
  have hne := setupIdentity_nonempty tokRl tokFile idRl idFile inS inU hs hu
  rw [h]
  exact hne

/-- Witness for the amended C7: a run with a cached token and a valid
identity file makes its one network call with the non-empty identity. -/
theorem c7_witness :
    (("https://api.example.org", "alice") : String × String).1 ≠ "" ∧
    (("https://api.example.org", "alice") : String × String).2 ≠ "" :=
  c7_identity_nonempty_at_calls ⟨true, none⟩
    (FileState.readable (Except.ok ⟨"alice", "JWT tok"⟩)) ⟨true, none⟩
    (FileState.readable (Except.ok ⟨"https://api.example.org", "alice"⟩)) "x" "y"
    (fun _ => Except.ok "pw") (fun _ => NetOutcome.transportErr "t")
    (NetOutcome.transportErr "t") none ["group1"] []
    (fun _ => NetOutcome.transportErr "t") ["test.ping"] none
    (by decide) (by decide) ("https://api.example.org", "alice") (by decide)

end Csalt
